import Mathlib

/-!
Verification of the webhook dispatch helper of the crm-n8n repository.

The development shallowly embeds `src/lib/webhookUtils.ts` (the function
`triggerWebhook`) together with the dispatcher call sites in the form
components (`AddActivityLogForm`, `CreateContactForm`, `EditContactForm`).
JavaScript strings are modelled as Lean `String`; JSON values as an
inductive `Json` type; the network and the external store are modelled as
explicit oracles passed to the function, and all console/fetch effects are
collected into an explicit result record.
-/

namespace CrmN8n

/-- JSON values, modelling the JavaScript objects handled by the app.
Object fields keep insertion order, as `JSON.stringify` does. -/
inductive Json where
  | str (s : String)
  | num (n : Int)
  | bool (b : Bool)
  | null
  | arr (elems : List Json)
  | obj (fields : List (String × Json))
deriving Repr

/-- JavaScript `String.prototype.startsWith` on the underlying char lists. -/
def listStartsWith : List Char → List Char → Bool
  | _, [] => true
  | [], _ :: _ => false
  | c :: cs, d :: ds => c == d && listStartsWith cs ds

/-- `s.startsWith(pre)` for JavaScript strings. -/
def jsStartsWith (s pre : String) : Bool :=
  listStartsWith s.data pre.data

/-- Escaping of one character inside a JSON string literal
(`JSON.stringify` behaviour for the characters the app can produce). -/
def escapeChar (c : Char) : List Char :=
  if c == '"' then ['\\', '"']
  else if c == '\\' then ['\\', '\\']
  else if c == '\n' then ['\\', 'n']
  else if c == '\t' then ['\\', 't']
  else if c == '\r' then ['\\', 'r']
  else [c]

/-- Escaping of a whole JSON string literal body. -/
def escapeString (s : String) : String :=
  String.mk (s.data.flatMap escapeChar)

mutual

/-- `JSON.stringify` on the `Json` model. -/
def Json.stringify : Json → String
  | .str s => "\"" ++ escapeString s ++ "\""
  | .num n => toString n
  | .bool b => if b then "true" else "false"
  | .null => "null"
  | .arr xs => "[" ++ Json.stringifyElems xs ++ "]"
  | .obj fs => "\x7b" ++ Json.stringifyFields fs ++ "\x7d"

/-- Comma-separated serialization of array elements. -/
def Json.stringifyElems : List Json → String
  | [] => ""
  | [x] => Json.stringify x
  | x :: y :: xs => Json.stringify x ++ "," ++ Json.stringifyElems (y :: xs)

/-- Comma-separated serialization of object fields. -/
def Json.stringifyFields : List (String × Json) → String
  | [] => ""
  | [(k, v)] => "\"" ++ escapeString k ++ "\":" ++ Json.stringify v
  | (k, v) :: f :: fs =>
      "\"" ++ escapeString k ++ "\":" ++ Json.stringify v ++ "," ++
        Json.stringifyFields (f :: fs)

end

/-- Look a field up in a JSON object (JavaScript `obj.key`, first match). -/
def Json.field (j : Json) (k : String) : Json :=
  match j with
  | .obj fs =>
    match fs.find? (fun f => f.1 == k) with
    | some f => f.2
    | none => .null
  | _ => .null

/-- The string content of a JSON value when it is a string (the only way
the call sites use field projections inside strings). -/
def Json.asString : Json → String
  | .str s => s
  | _ => ""

/-- A webhook row as selected by `triggerWebhook`
(`select('id, url')`; `url` may be null in the store). -/
structure WebhookRow where
  id : String
  url : Option String
deriving Repr, DecidableEq

/-- A full row of the `webhooks` table in the external store. -/
structure DbWebhookRow where
  id : String
  user_id : String
  event_trigger : String
  url : Option String
deriving Repr, DecidableEq

/-- Embedding of the registry lookup
`supabase.from('webhooks').select('id, url').eq('event_trigger', eventType)`:
filter by `event_trigger` only, project to `id, url`. -/
def queryWebhooks (db : List DbWebhookRow) (eventType : String) : List WebhookRow :=
  (db.filter (fun r => r.event_trigger == eventType)).map
    (fun r => { id := r.id, url := r.url })

/-- Outcome of the supabase query as seen by `triggerWebhook`:
either `fetchError` is set, or `data` is returned (possibly null). -/
inductive QueryResult where
  | failure (err : String)
  | success (rows : Option (List WebhookRow))
deriving Repr

/-- An HTTP request issued through `fetch`. -/
structure HttpRequest where
  url : String
  method : String
  contentType : String
  body : String
deriving Repr, DecidableEq

/-- Outcome of one `fetch` call: an HTTP response (with status, status
text, and a response body whose read may itself fail), or a
network-level exception. -/
inductive FetchOutcome where
  | response (status : Nat) (statusText : String) (respBody : Option String)
  | networkError (msg : String)
deriving Repr

/-- Console log levels used by `triggerWebhook`. -/
inductive LogLevel where
  | info
  | warn
  | error
deriving Repr, DecidableEq

/-- One console entry. -/
structure LogEntry where
  level : LogLevel
  msg : String
deriving Repr, DecidableEq

/-- The argument object of `triggerWebhook`; `userId` is `none` when the
caller leaves it undefined. -/
structure WebhookPayload where
  userId : Option String
  data : Json
deriving Repr

/-- JavaScript falsiness of the `userId` value (`!userId`):
true for undefined/null and for the empty string. -/
def strFalsy : Option String → Bool
  | none => true
  | some s => s == ""

/-- The components of a parsed absolute http(s) URL that `new URL`
exposes as `pathname`, `search` and `hash`. -/
structure UrlParts where
  pathname : String
  search : String
  hash : String
deriving Repr, DecidableEq

/-- True for the characters that end the authority component. -/
def isAuthorityEnd (c : Char) : Bool :=
  c == '/' || c == '?' || c == '#'

/-- Parse the part of an http(s) URL after the scheme: a non-empty
authority followed by path, query and fragment.  `none` models the
`new URL` constructor throwing. -/
def parseAfterScheme (cs : List Char) : Option UrlParts :=
  let authority := cs.takeWhile (fun c => !isAuthorityEnd c)
  let rest := cs.dropWhile (fun c => !isAuthorityEnd c)
  if authority.isEmpty then none
  else
    let path := rest.takeWhile (fun c => !(c == '?' || c == '#'))
    let afterPath := rest.dropWhile (fun c => !(c == '?' || c == '#'))
    let search := afterPath.takeWhile (fun c => !(c == '#'))
    let frag := afterPath.dropWhile (fun c => !(c == '#'))
    some { pathname := if path.isEmpty then "/" else String.mk path
           search := String.mk search
           hash := String.mk frag }

/-- `new URL(s)` restricted to the two schemes the code tests for. -/
def parseHttpUrl (s : String) : Option UrlParts :=
  if jsStartsWith s "http://" then parseAfterScheme (s.data.drop 7)
  else if jsStartsWith s "https://" then parseAfterScheme (s.data.drop 8)
  else none

/-- Result of the defensive path extraction (lines 48-59 of
`webhookUtils.ts`): a usable path together with whether a full URL was
detected (and a warning logged), or an invalid value (the `new URL`
constructor threw and the row is skipped). -/
inductive ExtractResult where
  | ok (path : String) (warned : Bool)
  | invalid
deriving Repr, DecidableEq

/-- The defensive extraction step of `triggerWebhook`: values beginning
with an HTTP/HTTPS scheme are parsed and replaced by
`pathname + search + hash`; anything else is used as-is. -/
def extractPath (stored : String) : ExtractResult :=
  if jsStartsWith stored "http://" || jsStartsWith stored "https://" then
    match parseHttpUrl stored with
    | some u => .ok (u.pathname ++ u.search ++ u.hash) true
    | none => .invalid
  else
    .ok stored false

/-- The slash normalization step of `triggerWebhook` (lines 61-64). -/
def ensureLeadingSlash (p : String) : String :=
  if !jsStartsWith p "/" then "/" ++ p else p

/-- JavaScript truthiness of the stored `url` column value
(`!webhook.url` skips null and the empty string). -/
def usableUrl : Option String → Option String
  | none => none
  | some s => if s == "" then none else some s

/-- All observable effects of one `triggerWebhook` invocation: console
output, the HTTP requests issued, and whether the webhook registry was
queried at all.  The function always returns such a record (the source
catches every error), so termination without a thrown exception is
modelled by totality. -/
structure DispatchResult where
  logs : List LogEntry
  requests : List HttpRequest
  lookedUp : Bool
deriving Repr

/-- The local routing path under which the reverse proxy forwards to n8n. -/
def apiN8nRoute : String := "/api/n8n"

/-- Per-row body of the `webhooks.map` callback in `triggerWebhook`
(lines 42-103 of `webhookUtils.ts`): skip rows without a usable path,
extract and normalize the path, issue one POST through the `fetch`
oracle `f`, and log the outcome.  Returns the console entries and the
request issued, if any. -/
def processWebhook (eventType : String) (data : Json)
    (f : HttpRequest → FetchOutcome) (now : String) (w : WebhookRow) :
    List LogEntry × Option HttpRequest :=
  match usableUrl w.url with
  | none =>
    ([⟨.warn, "Webhook " ++ w.id ++ " has no path configured. Skipping."⟩], none)
  | some stored =>
    match extractPath stored with
    | .invalid =>
      ([⟨.error, "Webhook " ++ w.id ++ " has an invalid URL/path format: " ++
          stored ++ ". Skipping."⟩], none)
    | .ok p warned =>
      let warnLogs : List LogEntry :=
        if warned then
          [⟨.warn, "Webhook " ++ w.id ++ " contained a full URL. Extracted path: " ++ p⟩]
        else []
      let path := ensureLeadingSlash p
      let proxiedUrl := apiN8nRoute ++ path
      let req : HttpRequest :=
        { url := proxiedUrl
          method := "POST"
          contentType := "application/json"
          body := Json.stringify (.obj
            [("event", .str eventType), ("data", data), ("triggered_at", .str now)]) }
      let outcomeLogs : List LogEntry :=
        match f req with
        | .response status statusText respBody =>
          if 200 ≤ status ∧ status < 300 then
            [⟨.info, "Webhook " ++ w.id ++ " (" ++ proxiedUrl ++
                ") triggered successfully for event " ++ eventType ++ "."⟩]
          else
            ⟨.error, "Webhook " ++ w.id ++ " (" ++ proxiedUrl ++ ") failed for event " ++
                eventType ++ ". Status: " ++ toString status ++ " " ++ statusText⟩ ::
            (match respBody with
             | some b => [⟨.error, "Webhook response body: " ++ b⟩]
             | none => [⟨.error, "Could not read webhook response body."⟩])
        | .networkError m =>
          [⟨.error, "Error sending POST request to webhook " ++ w.id ++ " (" ++
              proxiedUrl ++ ") for event " ++ eventType ++ ": " ++ m⟩]
      (warnLogs ++ outcomeLogs, some req)

/-- Embedding of `triggerWebhook(eventType, payload)`.  The ambient
store and network are passed explicitly: `q` is the registry query (by
event type), `f` answers each `fetch`, and `now` is the value
`new Date().toISOString()` produces at send time. -/
def triggerWebhook (eventType : String) (payload : WebhookPayload)
    (q : String → QueryResult) (f : HttpRequest → FetchOutcome) (now : String) :
    DispatchResult :=
  if strFalsy payload.userId then
    { logs := [⟨.error, "Webhook trigger attempted without user ID."⟩]
      requests := []
      lookedUp := false }
  else
    match q eventType with
    | .failure err =>
      { logs := [⟨.error, "Error fetching webhooks for event " ++ eventType ++ ": " ++ err⟩]
        requests := []
        lookedUp := true }
    | .success none =>
      { logs := [], requests := [], lookedUp := true }
    | .success (some rows) =>
      if rows.length == 0 then
        { logs := [], requests := [], lookedUp := true }
      else
        let perRow := rows.map (processWebhook eventType payload.data f now)
        { logs := ⟨.info, "Found " ++ toString rows.length ++ " webhook(s) for event " ++
              eventType ++ ". Triggering..."⟩ :: (perRow.map Prod.fst).flatten
          requests := perRow.filterMap Prod.snd
          lookedUp := true }

/-- The request `triggerWebhook` constructs for one webhook row, when it
constructs one (pure description of the request-building part of
`processWebhook`; independent of the fetch oracle). -/
def rowRequest (eventType : String) (data : Json) (now : String) (w : WebhookRow) :
    Option HttpRequest :=
  match usableUrl w.url with
  | none => none
  | some stored =>
    match extractPath stored with
    | .invalid => none
    | .ok p _ =>
      some
        { url := apiN8nRoute ++ ensureLeadingSlash p
          method := "POST"
          contentType := "application/json"
          body := Json.stringify (.obj
            [("event", .str eventType), ("data", data), ("triggered_at", .str now)]) }

/-- A call made to the Dispatcher (`triggerWebhook`) by a form handler. -/
structure DispatcherCall where
  eventType : String
  userId : Option String
  data : Json
deriving Repr

/-- A mutation sent to the external store by a form handler. -/
structure StoreOp where
  table : String
  op : String
  row : Json
deriving Repr

/-- The store mutations and Dispatcher calls one form submission makes. -/
structure FormRun where
  ops : List StoreOp
  dispatches : List DispatcherCall
deriving Repr

/-- `values.x || null` for optional text fields. -/
def strOrNull (s : String) : Json :=
  if s == "" then Json.null else Json.str s

/-- Embedding of `AddActivityLogForm.onSubmit` (success path of the
insert is the `reply` argument: the row returned by
`.select().single()`, or an error).  After a successful insert that
returns the new activity, and only then, the handler calls
`triggerWebhook('activity.created', ...)`. -/
def addActivityLogOnSubmit (uid contactId action description : String)
    (reminder : Option String) (reply : Except String (Option Json)) : FormRun :=
  let row : Json := .obj
    [("user_id", .str uid), ("contact_id", .str contactId), ("action", .str action),
     ("description", strOrNull description),
     ("reminder_at", match reminder with | none => Json.null | some t => Json.str t)]
  match reply with
  | .error _ => { ops := [⟨"activity_logs", "insert", row⟩], dispatches := [] }
  | .ok none => { ops := [⟨"activity_logs", "insert", row⟩], dispatches := [] }
  | .ok (some newActivity) =>
    { ops := [⟨"activity_logs", "insert", row⟩]
      dispatches := [⟨"activity.created", some uid, newActivity⟩] }

/-- Embedding of `CreateContactForm.onSubmit`: inserts the contact,
then (on success) inserts an automatic 'Created' activity-log row.  The
handler contains no `triggerWebhook` call, so `dispatches` is empty on
every path. -/
def createContactOnSubmit (uid nameV email company statusV sourceV notes : String)
    (contactReply : Except String (Option Json)) : FormRun :=
  let row : Json := .obj
    [("user_id", .str uid), ("name", .str nameV), ("email", .str email),
     ("company", strOrNull company), ("status", strOrNull statusV),
     ("source", strOrNull sourceV), ("notes", strOrNull notes)]
  match contactReply with
  | .error _ => { ops := [⟨"contacts", "insert", row⟩], dispatches := [] }
  | .ok none => { ops := [⟨"contacts", "insert", row⟩], dispatches := [] }
  | .ok (some newContact) =>
    let logRow : Json := .obj
      [("user_id", .str uid), ("contact_id", Json.field newContact "id"),
       ("action", .str "Created"),
       ("description", .str ("Contact " ++ (Json.field newContact "name").asString ++ " created."))]
    { ops := [⟨"contacts", "insert", row⟩, ⟨"activity_logs", "insert", logRow⟩]
      dispatches := [] }

/-- Embedding of `EditContactForm.onSubmit`: a single update of the
contact row; the handler contains no `triggerWebhook` call. -/
def editContactOnSubmit (contactId nameV email company statusV sourceV notes : String) :
    FormRun :=
  let row : Json := .obj
    [("name", .str nameV), ("email", .str email),
     ("company", strOrNull company), ("status", strOrNull statusV),
     ("source", strOrNull sourceV), ("notes", strOrNull notes)]
  { ops := [⟨"contacts", "update eq id " ++ contactId, row⟩], dispatches := [] }

/-! ### Helper lemmas -/

theorem string_data_append (a b : String) : (a ++ b).data = a.data ++ b.data := by
  cases a
  cases b
  rfl

theorem jsStartsWith_slash_append (p : String) : jsStartsWith ("/" ++ p) "/" = true := by
  have h : ("/" ++ p).data = '/' :: p.data := by
    rw [string_data_append]
    rfl
  have h2 : ("/" : String).data = ['/'] := rfl
  unfold jsStartsWith
  rw [h, h2]
  simp [listStartsWith]

theorem ensureLeadingSlash_slash (p : String) :
    jsStartsWith (ensureLeadingSlash p) "/" = true := by
  unfold ensureLeadingSlash
  cases h : jsStartsWith p "/" with
  | true => simp [h]
  | false => simp [h, jsStartsWith_slash_append]

theorem processWebhook_snd (e : String) (d : Json) (f : HttpRequest → FetchOutcome)
    (now : String) (w : WebhookRow) :
    (processWebhook e d f now w).2 = rowRequest e d now w := by
  unfold processWebhook rowRequest
  cases h : usableUrl w.url with
  | none => simp
  | some stored =>
    cases h2 : extractPath stored with
    | invalid => simp [h2]
    | ok p warned => simp [h2]

theorem strFalsy_some_false (uid : String) (h : uid ≠ "") :
    strFalsy (some uid) = false := by
  simp [strFalsy, h]

theorem triggerWebhook_requests_eq (e uid now : String) (d : Json)
    (q : String → QueryResult) (f : HttpRequest → FetchOutcome)
    (rows : List WebhookRow) (hne : uid ≠ "")
    (hq : q e = QueryResult.success (some rows)) :
    (triggerWebhook e ⟨some uid, d⟩ q f now).requests =
      rows.filterMap (rowRequest e d now) := by
  unfold triggerWebhook
  simp only [strFalsy_some_false uid hne, Bool.false_eq_true, if_false, hq]
  cases rows with
  | nil => simp
  | cons w ws =>
    simp only [List.length_cons, beq_iff_eq, Nat.succ_ne_zero, if_false]
    rw [List.filterMap_map]
    congr 1
    funext x
    exact processWebhook_snd e d f now x

/-! ### Claim theorems -/

/-- Claim C1: the spec says each of the three events (contact.created,
contact.updated, activity.created) has its mutating component call
`triggerWebhook` after the local mutation succeeds.  Evaluating the
embedded handlers shows the contact forms never call the Dispatcher even
on a fully successful mutation (two store inserts performed), while the
activity form does dispatch `activity.created`. -/
theorem contact_events_never_dispatched :
    (createContactOnSubmit "u1" "John Doe" "john@example.com" "" "Lead" "" ""
        (Except.ok (some (Json.obj [("id", Json.str "c1"), ("name", Json.str "John Doe")])))).dispatches = []
    ∧ (createContactOnSubmit "u1" "John Doe" "john@example.com" "" "Lead" "" ""
        (Except.ok (some (Json.obj [("id", Json.str "c1"), ("name", Json.str "John Doe")])))).ops.length = 2
    ∧ (editContactOnSubmit "c1" "John Doe" "john@example.com" "" "Lead" "" "").dispatches = []
    ∧ (addActivityLogOnSubmit "u1" "c1" "Called" "" none
        (Except.ok (some (Json.obj [("id", Json.str "a1")])))).dispatches =
        [⟨"activity.created", some "u1", Json.obj [("id", Json.str "a1")]⟩] :=
  ⟨rfl, rfl, rfl, rfl⟩

/-- Claim C5: a stored path lacking a leading slash is delivered with
exactly one slash prepended, and the normalization is idempotent. -/
theorem leading_slash_normalization (p : String) (hp : jsStartsWith p "/" = false) :
    ensureLeadingSlash p = "/" ++ p
    ∧ (∀ r, jsStartsWith r "/" = true → ensureLeadingSlash r = r)
    ∧ (∀ r, ensureLeadingSlash (ensureLeadingSlash r) = ensureLeadingSlash r) := by
  refine ⟨by simp [ensureLeadingSlash, hp], fun r hr => by simp [ensureLeadingSlash, hr], fun r => ?_⟩
  have h := ensureLeadingSlash_slash r
  unfold ensureLeadingSlash
  cases hr : jsStartsWith r "/" with
  | true => simp [hr]
  | false =>
    simp only [hr, Bool.not_false, if_true]
    simp [jsStartsWith_slash_append]

/-- Witness for claim C5 at the concrete stored path `webhook/abc`. -/
theorem leading_slash_normalization_witness :
    jsStartsWith "webhook/abc" "/" = false ∧
      ensureLeadingSlash "webhook/abc" = "/" ++ "webhook/abc" :=
  ⟨by decide, (leading_slash_normalization "webhook/abc" (by decide)).1⟩

/-- Claim C6: a call whose payload has no `userId` is a no-op — the
omission is logged as an error, the registry is never queried, and no
request is issued; the function still returns a result. -/
theorem missing_user_id_noop (e now : String) (d : Json)
    (q : String → QueryResult) (f : HttpRequest → FetchOutcome) :
    triggerWebhook e ⟨none, d⟩ q f now =
      { logs := [⟨LogLevel.error, "Webhook trigger attempted without user ID."⟩]
        requests := []
        lookedUp := false } := by
  rfl

theorem triggerWebhook_requests_indep (e now : String) (pl : WebhookPayload)
    (q : String → QueryResult) (f g : HttpRequest → FetchOutcome) :
    (triggerWebhook e pl q f now).requests = (triggerWebhook e pl q g now).requests := by
  unfold triggerWebhook
  cases hf : strFalsy pl.userId with
  | true => simp [hf]
  | false =>
    simp only [hf, Bool.false_eq_true, if_false]
    cases hq : q e with
    | failure err => simp
    | success rowsOpt =>
      cases rowsOpt with
      | none => simp
      | some rows =>
        cases rows with
        | nil => simp
        | cons w ws =>
          simp only [List.length_cons, beq_iff_eq, Nat.succ_ne_zero, if_false]
          rw [List.filterMap_map, List.filterMap_map]
          have hfg : (Prod.snd ∘ processWebhook e pl.data f now) =
              (Prod.snd ∘ processWebhook e pl.data g now) :=
            funext fun x =>
              (processWebhook_snd e pl.data f now x).trans
                (processWebhook_snd e pl.data g now x).symm
          rw [hfg]

theorem rowRequest_url_shape (e : String) (d : Json) (now : String)
    (w : WebhookRow) (req : HttpRequest)
    (h : rowRequest e d now w = some req) :
    ∃ p, req.url = apiN8nRoute ++ ensureLeadingSlash p := by
  unfold rowRequest at h
  cases h1 : usableUrl w.url with
  | none => simp [h1] at h
  | some stored =>
    cases h2 : extractPath stored with
    | invalid => simp [h1, h2] at h
    | ok p warned =>
      simp [h1, h2] at h
      subst h
      exact ⟨p, rfl⟩

theorem triggerWebhook_requests_from_rows (e now : String) (pl : WebhookPayload)
    (q : String → QueryResult) (f : HttpRequest → FetchOutcome) (req : HttpRequest)
    (hreq : req ∈ (triggerWebhook e pl q f now).requests) :
    ∃ w, rowRequest e pl.data now w = some req := by
  unfold triggerWebhook at hreq
  cases hf : strFalsy pl.userId with
  | true => simp [hf] at hreq
  | false =>
    simp only [hf, Bool.false_eq_true, if_false] at hreq
    cases hq : q e with
    | failure err => rw [hq] at hreq; simp at hreq
    | success rowsOpt =>
      rw [hq] at hreq
      cases rowsOpt with
      | none => simp at hreq
      | some rows =>
        cases rows with
        | nil => simp at hreq
        | cons w ws =>
          simp only [List.length_cons, beq_iff_eq, Nat.succ_ne_zero, if_false] at hreq
          rw [List.filterMap_map] at hreq
          have hc : (Prod.snd ∘ processWebhook e pl.data f now) = rowRequest e pl.data now :=
            funext fun x => processWebhook_snd e pl.data f now x
          rw [hc] at hreq
          rw [List.mem_filterMap] at hreq
          obtain ⟨x, _, hx⟩ := hreq
          exact ⟨x, hx⟩

/-- Claim C2: for every matching webhook row with a usable path the
dispatcher issues exactly one POST per row (the request list is the
per-row `filterMap` of the request builder), the request targets
`/api/n8n` followed by the normalized path, carries
`Content-Type: application/json`, and its body is the JSON object with
exactly the fields `event`, `data` and `triggered_at` (the send-time
timestamp); the spec's `webhook/abc` scenario is included verbatim. -/
theorem outbound_wire_contract
    (e uid now stored p : String) (d : Json) (q : String → QueryResult)
    (f : HttpRequest → FetchOutcome) (rows : List WebhookRow)
    (w : WebhookRow) (warned : Bool)
    (hne : uid ≠ "")
    (hq : q e = QueryResult.success (some rows))
    (hs : usableUrl w.url = some stored)
    (hp : extractPath stored = ExtractResult.ok p warned) :
    (triggerWebhook e ⟨some uid, d⟩ q f now).requests =
        rows.filterMap (rowRequest e d now)
    ∧ rowRequest e d now w = some
        { url := apiN8nRoute ++ ensureLeadingSlash p
          method := "POST"
          contentType := "application/json"
          body := Json.stringify (Json.obj
            [("event", Json.str e), ("data", d), ("triggered_at", Json.str now)]) }
    ∧ (triggerWebhook "activity.created"
          ⟨some "u1", Json.obj [("id", Json.str "1"), ("action", Json.str "Called")]⟩
          (fun _ => QueryResult.success (some [⟨"w1", some "webhook/abc"⟩]))
          f "2026-01-01T00:00:00.000Z").requests =
        [{ url := "/api/n8n/webhook/abc"
           method := "POST"
           contentType := "application/json"
           body := "\x7b\"event\":\"activity.created\",\"data\":\x7b\"id\":\"1\",\"action\":\"Called\"\x7d,\"triggered_at\":\"2026-01-01T00:00:00.000Z\"\x7d" }] := by
  refine ⟨triggerWebhook_requests_eq e uid now d q f rows hne hq, ?_, ?_⟩
  · unfold rowRequest
    simp [hs, hp]
  · rfl

/-- Witness for claim C2 at the spec's concrete scenario. -/
theorem outbound_wire_contract_witness :
    rowRequest "activity.created"
        (Json.obj [("id", Json.str "1"), ("action", Json.str "Called")])
        "2026-01-01T00:00:00.000Z" ⟨"w1", some "webhook/abc"⟩ = some
        { url := apiN8nRoute ++ ensureLeadingSlash "webhook/abc"
          method := "POST"
          contentType := "application/json"
          body := Json.stringify (Json.obj
            [("event", Json.str "activity.created"),
             ("data", Json.obj [("id", Json.str "1"), ("action", Json.str "Called")]),
             ("triggered_at", Json.str "2026-01-01T00:00:00.000Z")]) } :=
  (outbound_wire_contract "activity.created" "u1" "2026-01-01T00:00:00.000Z"
      "webhook/abc" "webhook/abc"
      (Json.obj [("id", Json.str "1"), ("action", Json.str "Called")])
      (fun _ => QueryResult.success (some [⟨"w1", some "webhook/abc"⟩]))
      (fun _ => FetchOutcome.response 200 "OK" none)
      [⟨"w1", some "webhook/abc"⟩] ⟨"w1", some "webhook/abc"⟩ false
      (by decide) rfl rfl rfl).2.1

/-- Claim C3: the set of requests issued never depends on the
per-request outcomes (no short-circuit on failure), every usable row's
request is attempted (the request list is the full per-row
`filterMap`), and the function is total, so it returns a result for
every outcome assignment. -/
theorem all_attempted_no_short_circuit
    (e uid now : String) (d : Json) (q : String → QueryResult)
    (f g : HttpRequest → FetchOutcome) (rows : List WebhookRow)
    (hne : uid ≠ "")
    (hq : q e = QueryResult.success (some rows)) :
    (triggerWebhook e ⟨some uid, d⟩ q f now).requests =
        (triggerWebhook e ⟨some uid, d⟩ q g now).requests
    ∧ (triggerWebhook e ⟨some uid, d⟩ q f now).requests =
        rows.filterMap (rowRequest e d now)
    ∧ (triggerWebhook e ⟨some uid, d⟩ q g now).requests =
        rows.filterMap (rowRequest e d now) :=
  ⟨triggerWebhook_requests_indep e now ⟨some uid, d⟩ q f g,
   triggerWebhook_requests_eq e uid now d q f rows hne hq,
   triggerWebhook_requests_eq e uid now d q g rows hne hq⟩

/-- Witness for claim C3: two webhooks, one endpoint answering HTTP 500
and one network error under `f`, everything HTTP 200 under `g`; the
request lists coincide and cover both rows. -/
theorem all_attempted_no_short_circuit_witness :
    (triggerWebhook "contact.created" ⟨some "u1", Json.null⟩
        (fun _ => QueryResult.success (some [⟨"w1", some "/a"⟩, ⟨"w2", some "/b"⟩]))
        (fun r => if r.url = "/api/n8n/a" then FetchOutcome.response 500 "Internal Server Error" (some "boom")
                  else FetchOutcome.networkError "connection refused") "t").requests =
      (triggerWebhook "contact.created" ⟨some "u1", Json.null⟩
        (fun _ => QueryResult.success (some [⟨"w1", some "/a"⟩, ⟨"w2", some "/b"⟩]))
        (fun _ => FetchOutcome.response 200 "OK" none) "t").requests :=
  (all_attempted_no_short_circuit "contact.created" "u1" "t" Json.null
      (fun _ => QueryResult.success (some [⟨"w1", some "/a"⟩, ⟨"w2", some "/b"⟩]))
      (fun r => if r.url = "/api/n8n/a" then FetchOutcome.response 500 "Internal Server Error" (some "boom")
                else FetchOutcome.networkError "connection refused")
      (fun _ => FetchOutcome.response 200 "OK" none)
      [⟨"w1", some "/a"⟩, ⟨"w2", some "/b"⟩]
      (by decide) rfl).1

/-- Claim C4: a stored value beginning with an HTTP/HTTPS scheme is
replaced by its parsed path + query + fragment (no scheme or host) with
the `warned` flag set, a warning console entry is emitted for such a
row, and any value not beginning with such a scheme is used as-is. -/
theorem full_url_path_extraction
    (s stored e now p : String) (u : UrlParts) (d : Json)
    (f : HttpRequest → FetchOutcome) (w : WebhookRow)
    (h1 : jsStartsWith s "http://" = true ∨ jsStartsWith s "https://" = true)
    (h2 : parseHttpUrl s = some u)
    (h3 : usableUrl w.url = some stored)
    (h4 : extractPath stored = ExtractResult.ok p true) :
    extractPath s = ExtractResult.ok (u.pathname ++ u.search ++ u.hash) true
    ∧ (∀ t, jsStartsWith t "http://" = false → jsStartsWith t "https://" = false →
        extractPath t = ExtractResult.ok t false)
    ∧ (⟨LogLevel.warn,
        "Webhook " ++ w.id ++ " contained a full URL. Extracted path: " ++ p⟩ : LogEntry)
        ∈ (processWebhook e d f now w).1 := by
  refine ⟨?_, ?_, ?_⟩
  · have hcond : (jsStartsWith s "http://" || jsStartsWith s "https://") = true := by
      cases h1 with
      | inl h => simp [h]
      | inr h => simp [h]
    unfold extractPath
    simp [hcond, h2]
  · intro t ht1 ht2
    simp [extractPath, ht1, ht2]
  · unfold processWebhook
    simp [h3, h4]

/-- Witness for claim C4 at a concrete stored full URL. -/
theorem full_url_path_extraction_witness :
    extractPath "https://biletrs.app.n8n.cloud/webhook/abc?x=1#frag" =
      ExtractResult.ok ("/webhook/abc" ++ "?x=1" ++ "#frag") true :=
  (full_url_path_extraction "https://biletrs.app.n8n.cloud/webhook/abc?x=1#frag"
      "https://biletrs.app.n8n.cloud/webhook/abc?x=1#frag" "contact.created" "t"
      "/webhook/abc?x=1#frag" ⟨"/webhook/abc", "?x=1", "#frag"⟩ Json.null
      (fun _ => FetchOutcome.response 200 "OK" none)
      ⟨"w1", some "https://biletrs.app.n8n.cloud/webhook/abc?x=1#frag"⟩
      (Or.inr (by decide)) rfl rfl rfl).1

/-- Claim C7: when the registry query fails, returns null data, or
returns zero rows, the dispatch ends with no request issued (and the
lookup did happen); the function returns a result rather than
throwing. -/
theorem query_failure_or_empty_is_silent
    (e uid now : String) (d : Json) (q : String → QueryResult)
    (f : HttpRequest → FetchOutcome)
    (hne : uid ≠ "")
    (hq : (∃ err, q e = QueryResult.failure err) ∨ q e = QueryResult.success none
          ∨ q e = QueryResult.success (some [])) :
    (triggerWebhook e ⟨some uid, d⟩ q f now).requests = []
    ∧ (triggerWebhook e ⟨some uid, d⟩ q f now).lookedUp = true := by
  have hfal := strFalsy_some_false uid hne
  rcases hq with ⟨err, hq⟩ | hq | hq <;>
    · unfold triggerWebhook
      simp [hfal, hq]

/-- Witness for claim C7: zero registered webhooks for contact.updated. -/
theorem query_failure_or_empty_is_silent_witness :
    (triggerWebhook "contact.updated" ⟨some "u1", Json.null⟩
        (fun _ => QueryResult.success (some []))
        (fun _ => FetchOutcome.response 200 "OK" none) "t").requests = []
    ∧ (triggerWebhook "contact.updated" ⟨some "u1", Json.null⟩
        (fun _ => QueryResult.success (some []))
        (fun _ => FetchOutcome.response 200 "OK" none) "t").lookedUp = true :=
  query_failure_or_empty_is_silent "contact.updated" "u1" "t" Json.null
    (fun _ => QueryResult.success (some []))
    (fun _ => FetchOutcome.response 200 "OK" none)
    (by decide) (Or.inr (Or.inr rfl))

/-- Claim C8: a row with a null or empty stored path is skipped with
only a console warning and no request, and the remaining rows are all
still attempted: the request list with the bad row present equals the
request list with it removed. -/
theorem empty_path_row_skipped
    (e uid now : String) (d : Json) (q q' : String → QueryResult)
    (f : HttpRequest → FetchOutcome) (w : WebhookRow)
    (rows1 rows2 : List WebhookRow)
    (hne : uid ≠ "")
    (hw : usableUrl w.url = none)
    (hq : q e = QueryResult.success (some (rows1 ++ w :: rows2)))
    (hq' : q' e = QueryResult.success (some (rows1 ++ rows2))) :
    processWebhook e d f now w =
      ([⟨LogLevel.warn, "Webhook " ++ w.id ++ " has no path configured. Skipping."⟩], none)
    ∧ (triggerWebhook e ⟨some uid, d⟩ q f now).requests =
        rows1.filterMap (rowRequest e d now) ++ rows2.filterMap (rowRequest e d now)
    ∧ (triggerWebhook e ⟨some uid, d⟩ q f now).requests =
        (triggerWebhook e ⟨some uid, d⟩ q' f now).requests := by
  have h1 : processWebhook e d f now w =
      ([⟨LogLevel.warn, "Webhook " ++ w.id ++ " has no path configured. Skipping."⟩], none) := by
    unfold processWebhook
    simp [hw]
  have hr : rowRequest e d now w = none := by
    unfold rowRequest
    simp [hw]
  have h2 := triggerWebhook_requests_eq e uid now d q f (rows1 ++ w :: rows2) hne hq
  have h3 := triggerWebhook_requests_eq e uid now d q' f (rows1 ++ rows2) hne hq'
  refine ⟨h1, ?_, ?_⟩
  · rw [h2]
    simp [List.filterMap_append, List.filterMap_cons, hr]
  · rw [h2, h3]
    simp [List.filterMap_append, List.filterMap_cons, hr]

/-- Witness for claim C8: the middle row has an empty stored path; the
other two rows are still delivered to. -/
theorem empty_path_row_skipped_witness :
    (triggerWebhook "activity.created" ⟨some "u1", Json.null⟩
        (fun _ => QueryResult.success (some [⟨"w1", some "/a"⟩, ⟨"w2", some ""⟩, ⟨"w3", some "b"⟩]))
        (fun _ => FetchOutcome.response 200 "OK" none) "t").requests =
      (triggerWebhook "activity.created" ⟨some "u1", Json.null⟩
        (fun _ => QueryResult.success (some [⟨"w1", some "/a"⟩, ⟨"w3", some "b"⟩]))
        (fun _ => FetchOutcome.response 200 "OK" none) "t").requests :=
  (empty_path_row_skipped "activity.created" "u1" "t" Json.null
      (fun _ => QueryResult.success (some [⟨"w1", some "/a"⟩, ⟨"w2", some ""⟩, ⟨"w3", some "b"⟩]))
      (fun _ => QueryResult.success (some [⟨"w1", some "/a"⟩, ⟨"w3", some "b"⟩]))
      (fun _ => FetchOutcome.response 200 "OK" none)
      ⟨"w2", some ""⟩ [⟨"w1", some "/a"⟩] [⟨"w3", some "b"⟩]
      (by decide) rfl rfl rfl).2.2

/-- Claim C9: the registry lookup selects exactly the rows whose
`event_trigger` equals the event type — every such row is selected no
matter which user owns it, everything selected comes from such a row,
and rewriting every row's `user_id` leaves the result unchanged. -/
theorem lookup_filters_by_event_only
    (db : List DbWebhookRow) (e u : String) (r : DbWebhookRow)
    (hr : r ∈ db) (he : r.event_trigger = e) :
    (⟨r.id, r.url⟩ : WebhookRow) ∈ queryWebhooks db e
    ∧ (∀ x ∈ queryWebhooks db e, ∃ s, s ∈ db ∧ s.event_trigger = e ∧ x = ⟨s.id, s.url⟩)
    ∧ queryWebhooks (db.map (fun s => { s with user_id := u })) e = queryWebhooks db e := by
  refine ⟨?_, ?_, ?_⟩
  · exact List.mem_map_of_mem _ (List.mem_filter.mpr ⟨hr, by simp [he]⟩)
  · intro x hx
    unfold queryWebhooks at hx
    rw [List.mem_map] at hx
    obtain ⟨s, hs, hxs⟩ := hx
    rw [List.mem_filter] at hs
    exact ⟨s, hs.1, by simpa using hs.2, hxs.symm⟩
  · unfold queryWebhooks
    rw [List.filter_map, List.map_map]
    rfl

/-- Witness for claim C9: a row owned by a different user than the
acting one is still selected for its event type. -/
theorem lookup_filters_by_event_only_witness :
    (⟨"w2", some "/b"⟩ : WebhookRow) ∈
      queryWebhooks
        [⟨"w1", "userA", "contact.created", some "/a"⟩,
         ⟨"w2", "userB", "contact.created", some "/b"⟩,
         ⟨"w3", "userA", "contact.updated", some "/c"⟩] "contact.created" :=
  (lookup_filters_by_event_only
      [⟨"w1", "userA", "contact.created", some "/a"⟩,
       ⟨"w2", "userB", "contact.created", some "/b"⟩,
       ⟨"w3", "userA", "contact.updated", some "/c"⟩]
      "contact.created" "userZ" ⟨"w2", "userB", "contact.created", some "/b"⟩
      (by decide) rfl).1

/-- Claim C10: every request any dispatch ever issues targets a URL of
the form `/api/n8n` followed by a path starting with `/`. -/
theorem requests_confined_to_api_n8n
    (e now : String) (pl : WebhookPayload) (q : String → QueryResult)
    (f : HttpRequest → FetchOutcome) (req : HttpRequest)
    (hreq : req ∈ (triggerWebhook e pl q f now).requests) :
    ∃ path, req.url = apiN8nRoute ++ path ∧ jsStartsWith path "/" = true := by
  obtain ⟨w, hw⟩ := triggerWebhook_requests_from_rows e now pl q f req hreq
  obtain ⟨p, hp⟩ := rowRequest_url_shape e pl.data now w req hw
  exact ⟨ensureLeadingSlash p, hp, ensureLeadingSlash_slash p⟩

/-- Witness for claim C10 at a concrete dispatch. -/
theorem requests_confined_to_api_n8n_witness :
    ∃ path,
      (⟨"/api/n8n/webhook/abc", "POST", "application/json",
        "\x7b\"event\":\"activity.created\",\"data\":null,\"triggered_at\":\"t\"\x7d"⟩ : HttpRequest).url =
        apiN8nRoute ++ path ∧ jsStartsWith path "/" = true :=
  requests_confined_to_api_n8n "activity.created" "t" ⟨some "u1", Json.null⟩
    (fun _ => QueryResult.success (some [⟨"w1", some "webhook/abc"⟩]))
    (fun _ => FetchOutcome.response 200 "OK" none)
    ⟨"/api/n8n/webhook/abc", "POST", "application/json",
      "\x7b\"event\":\"activity.created\",\"data\":null,\"triggered_at\":\"t\"\x7d"⟩
    (by decide)

end CrmN8n
